import Mathlib

-- Shallow embedding of the CRM application's opportunity-pipeline and
-- cross-entity-search route handlers.
--
-- Conventions of the embedding:
--  * database ids (cuids) and user ids are modelled as String;
--  * JS numbers that the code treats arithmetically are modelled as ℚ;
--  * timestamps (Date values) are modelled as Int (milliseconds);
--  * the relational store is a list of records per entity; a Prisma
--    findMany with a where-clause is List.filter, orderBy is a stable
--    insertion sort by the corresponding comparator, take is List.take;
--  * the authenticated session is Option String (the user id);
--  * fallible handlers return Except ApiError paired with the resulting
--    store, so that error paths visibly leave the store unchanged.

namespace CrmSpec

-- The fixed pipeline stage enumeration, in the order used by the zod
-- schema and by the kanban object literal in the GET handler.
def validStatuses : List String :=
  ["lead", "qualified", "proposal", "negotiating", "closed-won", "closed-lost"]

-- Opportunity record (fields used by the routes under verification).
structure Opportunity where
  id : String
  userId : String
  contactId : Option String
  title : String
  description : Option String
  value : Option ℚ
  currency : String
  status : String
  probability : ℚ
  stageOrder : ℚ
  closeDate : Option Int
  wonDate : Option Int
  lostReason : Option String
  createdAt : Int
  updatedAt : Int
deriving Repr, DecidableEq

structure Contact where
  id : String
  userId : String
  name : String
  email : Option String
  phone : Option String
  company : Option String
  title : Option String
  createdAt : Int
  updatedAt : Int
deriving Repr, DecidableEq

structure Communication where
  id : String
  userId : String
  commType : String
  direction : String
  subject : Option String
  content : Option String
  contactId : Option String
  opportunityId : Option String
  createdAt : Int
  updatedAt : Int
deriving Repr, DecidableEq

structure Document where
  id : String
  userId : String
  filename : String
  originalName : String
  mimeType : String
  size : ℕ
  uploadPath : String
  contactId : Option String
  opportunityId : Option String
  createdAt : Int
  updatedAt : Int
deriving Repr, DecidableEq

-- Error taxonomy surfaced by the route handlers.
inductive ApiError where
  | unauthorized
  | notFound (msg : String)
  | validationError (msg : String)
deriving Repr, DecidableEq

-- JS string-or-default: `s || dflt` on a string | undefined value
-- (the empty string is falsy).
def jsOrString (o : Option String) (dflt : String) : String :=
  match o with
  | some s => if s == "" then dflt else s
  | none => dflt

-- JS `s || null` on a string | null value from formData.
def jsOrNone (o : Option String) : Option String :=
  match o with
  | some s => if s == "" then none else some s
  | none => none

-- Stable insertion sort by a boolean comparator; models Prisma orderBy.
def insertLE (le : α → α → Bool) (x : α) : List α → List α
  | [] => [x]
  | y :: ys => if le x y then x :: y :: ys else y :: insertLE le x ys

def sortByLE (le : α → α → Bool) : List α → List α
  | [] => []
  | x :: xs => insertLE le x (sortByLE le xs)

-- Boolean check that the second list begins with the first.
def listStartsWith [BEq α] : List α → List α → Bool
  | _, [] => true
  | [], _ :: _ => false
  | x :: xs, y :: ys => x == y && listStartsWith xs ys

-- Boolean contiguous-sublist check: needle occurs inside the list.
def listContainsSub [BEq α] (needle : List α) : List α → Bool
  | [] => needle.isEmpty
  | x :: tl => listStartsWith (x :: tl) needle || listContainsSub needle tl

-- ASCII lowercasing of a string, as a character list.
def lowerChars (s : String) : List Char := s.data.map Char.toLower

-- Lexicographic code-point order on character lists; models ORDER BY asc
-- on a text column.
def charListLT : List Char → List Char → Bool
  | [], [] => false
  | [], _ :: _ => true
  | _ :: _, [] => false
  | a :: as, b :: bs =>
    decide (a.toNat < b.toNat) || (a == b && charListLT as bs)

def strLTb (a b : String) : Bool := charListLT a.data b.data

-- Case-insensitive substring match: Prisma `contains` with
-- mode 'insensitive' (ASCII case folding in this model).
def containsCI (hay needle : String) : Bool :=
  listContainsSub (lowerChars needle) (lowerChars hay)

def ciMatchOpt (f : Option String) (q : String) : Bool :=
  match f with
  | some s => containsCI s q
  | none => false

/-! Reorder (Move) endpoint: POST /api/opportunities/reorder -/

-- Request body after JSON parsing, before zod validation; newStatus is a
-- raw string so that the z.enum check is part of the model.  wonDate is
-- the already-parsed optional datetime (z.string().datetime()); the cuid
-- format check on opportunityId is not modelled.
structure ReorderBody where
  opportunityId : String
  newStatus : String
  newOrder : ℚ
  wonDate : Option Int
  lostReason : Option String
deriving Repr, DecidableEq

-- reorderSchema.parse: the z.enum membership check on newStatus.
def reorderParse (b : ReorderBody) : Except ApiError ReorderBody :=
  if b.newStatus ∈ validStatuses then Except.ok b
  else Except.error (ApiError.validationError "Validation error")

-- prisma.opportunity.findFirst with where id and userId.
def findFirstOpp (store : List Opportunity) (oppId uid : String) : Option Opportunity :=
  store.find? (fun o => o.id == oppId && o.userId == uid)

-- The update data built by the reorder POST handler: status, stageOrder
-- and updatedAt always; wonDate/probability forced on closed-won;
-- lostReason/probability forced on closed-lost.
def applyReorderData (o : Opportunity) (b : ReorderBody) (now : Int) : Opportunity :=
  let base := { o with status := b.newStatus, stageOrder := b.newOrder, updatedAt := now }
  if b.newStatus == "closed-won" then
    { base with wonDate := some (b.wonDate.getD now), probability := 100 }
  else if b.newStatus == "closed-lost" then
    { base with lostReason := some (jsOrString b.lostReason "Not specified"), probability := 0 }
  else base

-- POST /api/opportunities/reorder.  Returns the handler result together
-- with the resulting opportunity store.
def reorderPOST (session : Option String) (now : Int) (store : List Opportunity)
    (body : ReorderBody) : Except ApiError Opportunity × List Opportunity :=
  match session with
  | none => (Except.error ApiError.unauthorized, store)
  | some uid =>
    match reorderParse body with
    | Except.error e => (Except.error e, store)
    | Except.ok b =>
      match findFirstOpp store b.opportunityId uid with
      | none => (Except.error (ApiError.notFound "Opportunity not found"), store)
      | some o =>
        (Except.ok (applyReorderData o b now),
         store.map (fun x => if x.id == b.opportunityId then applyReorderData x b now else x))

/-! Generic opportunity update endpoint: PUT /api/opportunities/[id] -/

-- Body of the PUT after JSON parsing (updateOpportunitySchema =
-- opportunitySchema.partial() + id; every field optional).
structure UpdateOpportunityBody where
  contactId : Option String
  title : Option String
  description : Option String
  value : Option ℚ
  currency : Option String
  status : Option String
  probability : Option ℚ
  closeDate : Option Int
  stageOrder : Option ℚ
  wonDate : Option Int
  lostReason : Option String
deriving Repr, DecidableEq

-- updateOpportunitySchema.parse: per-field checks of the partial schema
-- (title min length 1, value positive, status in the enum, probability
-- in 0..100); absent fields pass.
def updateOppValid (b : UpdateOpportunityBody) : Bool :=
  (match b.title with | some t => decide (1 ≤ t.length) | none => true) &&
  (match b.value with | some v => decide (0 < v) | none => true) &&
  (match b.status with | some s => decide (s ∈ validStatuses) | none => true) &&
  (match b.probability with | some p => decide (0 ≤ p) && decide (p ≤ 100) | none => true)

-- The prisma update data of the PUT handler.  A field given as undefined
-- is skipped by prisma (column keeps its old value); closeDate is the
-- one field the handler always writes (`validatedData.closeDate ? ... :
-- null`), overwriting with null when absent.  Note: no forcing of
-- probability, wonDate or lostReason happens on this path, and
-- stageOrder/wonDate/lostReason of the body are not written at all.
def applyUpdateData (o : Opportunity) (b : UpdateOpportunityBody) : Opportunity :=
  { o with
    contactId := match b.contactId with | some c => some c | none => o.contactId
    title := b.title.getD o.title
    description := match b.description with | some d => some d | none => o.description
    value := match b.value with | some v => some v | none => o.value
    currency := b.currency.getD o.currency
    status := b.status.getD o.status
    probability := b.probability.getD o.probability
    closeDate := b.closeDate }

-- PUT /api/opportunities/[id].
def updatePUT (session : Option String) (store : List Opportunity) (oppId : String)
    (body : UpdateOpportunityBody) : Except ApiError Opportunity × List Opportunity :=
  match session with
  | none => (Except.error ApiError.unauthorized, store)
  | some uid =>
    if updateOppValid body then
      match findFirstOpp store oppId uid with
      | none => (Except.error (ApiError.notFound "Opportunity not found"), store)
      | some o =>
        (Except.ok (applyUpdateData o body),
         store.map (fun x => if x.id == oppId then applyUpdateData x body else x))
    else (Except.error (ApiError.validationError "Validation error"), store)

/-! Listing endpoint: GET /api/opportunities -/

-- The where-clause of the GET: userId plus the optional query / status /
-- contactId filters; the handler reads each search param with `|| ""`,
-- so the empty string denotes an absent parameter.
def oppMatchesWhere (uid query status contactId : String) (o : Opportunity) : Bool :=
  o.userId == uid &&
  (query == "" || containsCI o.title query || ciMatchOpt o.description query) &&
  (status == "" || o.status == status) &&
  (contactId == "" || o.contactId == some contactId)

-- orderBy: status asc, stageOrder asc, updatedAt desc.
def oppOrderLE (a b : Opportunity) : Bool :=
  if a.status ≠ b.status then strLTb a.status b.status
  else if a.stageOrder ≠ b.stageOrder then decide (a.stageOrder < b.stageOrder)
  else decide (b.updatedAt ≤ a.updatedAt)

-- The kanban object literal: six buckets, keys in the fixed stage order.
def kanbanData (opps : List Opportunity) : List (String × List Opportunity) :=
  [("lead", opps.filter (fun o => o.status == "lead")),
   ("qualified", opps.filter (fun o => o.status == "qualified")),
   ("proposal", opps.filter (fun o => o.status == "proposal")),
   ("negotiating", opps.filter (fun o => o.status == "negotiating")),
   ("closed-won", opps.filter (fun o => o.status == "closed-won")),
   ("closed-lost", opps.filter (fun o => o.status == "closed-lost"))]

structure OppStats where
  total : ℕ
  totalValue : ℚ
  pipelineValue : ℚ
  wonValue : ℚ
  winRate : ℚ
  avgValue : ℚ
  won : ℕ
  lost : ℕ
  active : ℕ
deriving Repr, DecidableEq

-- JS `x || 0` on the nullable value column.
def valOrZero (o : Opportunity) : ℚ := o.value.getD 0

def sumValues (l : List Opportunity) : ℚ := (l.map valOrZero).sum

-- Math.round: round half towards positive infinity.
def jsRound (x : ℚ) : ℤ := ⌊x + 1/2⌋

-- Math.round(x * 100) / 100.
def roundTo2 (x : ℚ) : ℚ := (jsRound (x * 100) : ℚ) / 100

-- The stats block computed by the GET handler from the fetched list.
def computeStats (opps : List Opportunity) : OppStats :=
  let total := opps.length
  let won := (opps.filter (fun o => o.status == "closed-won")).length
  let lost := (opps.filter (fun o => o.status == "closed-lost")).length
  let closed := won + lost
  let winRate : ℚ := if closed > 0 then ((won : ℚ) / (closed : ℚ)) * 100 else 0
  { total := total
    totalValue := sumValues opps
    pipelineValue := sumValues (opps.filter (fun o => !(listStartsWith o.status.data "closed-".data)))
    wonValue := sumValues (opps.filter (fun o => o.status == "closed-won"))
    winRate := roundTo2 winRate
    avgValue := if total > 0 then sumValues opps / (total : ℚ) else 0
    won := won
    lost := lost
    active := total - closed }

structure OppsResponse where
  opportunities : List Opportunity
  kanban : List (String × List Opportunity)
  stats : OppStats
deriving Repr, DecidableEq

-- GET /api/opportunities.
def opportunitiesGET (session : Option String) (store : List Opportunity)
    (query status contactId : String) : Except ApiError OppsResponse :=
  match session with
  | none => Except.error ApiError.unauthorized
  | some uid =>
    let fetched := sortByLE oppOrderLE (store.filter (oppMatchesWhere uid query status contactId))
    Except.ok
      { opportunities := fetched
        kanban := kanbanData fetched
        stats := computeStats fetched }

-- Projection used in concrete statements about the stats block.
def respStats : Except ApiError OppsResponse → Option OppStats
  | Except.ok r => some r.stats
  | Except.error _ => none

/-! Search endpoint: GET /api/search -/

-- The four entity collections of the relational store.
structure Store where
  contacts : List Contact
  opportunities : List Opportunity
  communications : List Communication
  documents : List Document
deriving Repr, DecidableEq

-- Per-entity field matchers of the search fan-out, each a Prisma OR of
-- case-insensitive contains filters.
def contactMatches (q : String) (c : Contact) : Bool :=
  containsCI c.name q || ciMatchOpt c.email q || ciMatchOpt c.company q ||
  ciMatchOpt c.title q || ciMatchOpt c.phone q

def oppSearchMatches (q : String) (o : Opportunity) : Bool :=
  containsCI o.title q || ciMatchOpt o.description q

def commMatches (q : String) (m : Communication) : Bool :=
  ciMatchOpt m.subject q || ciMatchOpt m.content q

def docMatches (q : String) (d : Document) : Bool :=
  containsCI d.originalName q || containsCI d.filename q

-- orderBy comparators of the four collection queries.
def byUpdatedDesc {α} (upd : α → Int) (a b : α) : Bool := decide (upd b ≤ upd a)

-- JS falsiness of a nullable string query parameter.
def jsFalsyOpt (o : Option String) : Bool :=
  match o with
  | some s => s == ""
  | none => true

-- Scope test of a collection branch:
-- `!type || type === name || type === 'all'`.
def inScope (ty : Option String) (name : String) : Bool :=
  jsFalsyOpt ty || ty == some name || ty == some "all"

-- The per-collection take value:
-- `type === name ? limit : Math.min(limit / 4, 10)` as a JS number.
def takeCount (ty : Option String) (name : String) (limit : ℕ) : ℚ :=
  if ty == some name then (limit : ℚ) else min ((limit : ℚ) / 4) 10

-- Prisma take with a JS-number argument.  The count actually taken is
-- the floor of the (nonnegative) argument; every take value reaching
-- this model is an integer or an upper bound used only through ≤.
def jsTake (q : ℚ) (l : List α) : List α := l.take (Int.toNat ⌊q⌋)

-- The searchResults shape of the handler, with each collection kept as
-- the list of matched entity records.  The per-item display
-- normalization (title/subtitle/metadata strings) is a projection of
-- each record and is presentation-only; it does not change which
-- entities are returned, so it is not modelled.
structure SearchResults where
  contacts : List Contact
  opportunities : List Opportunity
  communications : List Communication
  documents : List Document
  total : ℕ
deriving Repr, DecidableEq

-- Response of the search GET.  The early return for a falsy query is
-- the literal object with a single `results` field and NO total field,
-- which the bare constructor records.
inductive SearchResponse where
  | unauthorized
  | bare
  | ok (r : SearchResults)
deriving Repr, DecidableEq

-- The total field of a search response, when the response has one.
def totalField : SearchResponse → Option ℕ
  | SearchResponse.ok r => some r.total
  | _ => none

-- GET /api/search.
def searchGET (session : Option String) (st : Store) (query ty : Option String)
    (limitParam : Option ℕ) : SearchResponse :=
  match session with
  | none => SearchResponse.unauthorized
  | some uid =>
    let limit := min (limitParam.getD 20) 50
    if jsFalsyOpt query then SearchResponse.bare
    else
      let q := query.getD ""
      let contacts :=
        if inScope ty "contacts" then
          jsTake (takeCount ty "contacts" limit)
            (sortByLE (byUpdatedDesc Contact.updatedAt)
              (st.contacts.filter (fun c => c.userId == uid && contactMatches q c)))
        else []
      let opps :=
        if inScope ty "opportunities" then
          jsTake (takeCount ty "opportunities" limit)
            (sortByLE (byUpdatedDesc Opportunity.updatedAt)
              (st.opportunities.filter (fun o => o.userId == uid && oppSearchMatches q o)))
        else []
      let comms :=
        if inScope ty "communications" then
          jsTake (takeCount ty "communications" limit)
            (sortByLE (byUpdatedDesc Communication.createdAt)
              (st.communications.filter (fun m => m.userId == uid && commMatches q m)))
        else []
      let docs :=
        if inScope ty "documents" then
          jsTake (takeCount ty "documents" limit)
            (sortByLE (byUpdatedDesc Document.createdAt)
              (st.documents.filter (fun d => d.userId == uid && docMatches q d)))
        else []
      SearchResponse.ok
        { contacts := contacts
          opportunities := opps
          communications := comms
          documents := docs
          total := contacts.length + opps.length + comms.length + docs.length }

/-! Document upload endpoint: POST /api/documents -/

-- The multipart file payload: name, MIME type, declared size, bytes.
structure FileData where
  name : String
  mimeType : String
  size : ℕ
  bytes : List ℕ
deriving Repr, DecidableEq

structure UploadBody where
  file : Option FileData
  contactId : Option String
  opportunityId : Option String
deriving Repr, DecidableEq

-- File storage plus the document table.
structure DocStore where
  fs : List (String × List ℕ)
  docs : List Document
deriving Repr, DecidableEq

-- POST /api/documents.  genId and genFilename stand for the generated
-- record id and the timestamp-random filename; the mkdir calls touch no
-- modelled state.  On success the handler first writes the bytes to
-- storage and then inserts the document row.
def documentsPOST (session : Option String) (genId genFilename : String) (now : Int)
    (st : DocStore) (body : UploadBody) : Except ApiError Document × DocStore :=
  match session with
  | none => (Except.error ApiError.unauthorized, st)
  | some uid =>
    match body.file with
    | none => (Except.error (ApiError.validationError "No file provided"), st)
    | some f =>
      if f.size > 10 * 1024 * 1024 then
        (Except.error (ApiError.validationError "File too large. Maximum size is 10MB"), st)
      else
        let filePath := "uploads/" ++ uid ++ "/" ++ genFilename
        let doc : Document :=
          { id := genId
            userId := uid
            filename := genFilename
            originalName := f.name
            mimeType := if f.mimeType == "" then "application/octet-stream" else f.mimeType
            size := f.size
            uploadPath := filePath
            contactId := jsOrNone body.contactId
            opportunityId := jsOrNone body.opportunityId
            createdAt := now
            updatedAt := now }
        (Except.ok doc, { fs := st.fs ++ [(filePath, f.bytes)], docs := st.docs ++ [doc] })

/-! Derived notions and concrete fixtures used in the statements below -/

-- The data-model probability invariant of the spec.
def probInvariant (o : Opportunity) : Prop :=
  (o.status = "closed-won" → o.probability = 100) ∧
  (o.status = "closed-lost" → o.probability = 0)

instance (o : Opportunity) : Decidable (probInvariant o) := by
  unfold probInvariant; infer_instance

-- Unwrap a successful listing response (fixture helper for witnesses).
def getRespOrEmpty (e : Except ApiError OppsResponse) : OppsResponse :=
  match e with
  | Except.ok r => r
  | Except.error _ => { opportunities := [], kanban := kanbanData [], stats := computeStats [] }

-- A baseline opportunity fixture owned by user u1.
def baseOpp : Opportunity :=
  { id := "o1", userId := "u1", contactId := none, title := "Base deal",
    description := none, value := none, currency := "USD", status := "lead",
    probability := 50, stageOrder := 0, closeDate := none, wonDate := none,
    lostReason := none, createdAt := 0, updatedAt := 0 }

-- A PUT body that moves the opportunity to closed-won while keeping a
-- mid-range probability (passes the partial schema).
def cxPutBody : UpdateOpportunityBody :=
  { contactId := none, title := none, description := none, value := none,
    currency := none, status := some "closed-won", probability := some 50,
    closeDate := none, stageOrder := none, wonDate := none, lostReason := none }

-- Reorder bodies: a closed-lost move with an empty lost reason, a body
-- with a status outside the enumeration, and a move of a missing id.
def moveLostBody : ReorderBody :=
  { opportunityId := "o1", newStatus := "closed-lost", newOrder := 2,
    wonDate := none, lostReason := some "" }

def bogusBody : ReorderBody :=
  { opportunityId := "o1", newStatus := "bogus", newOrder := 0,
    wonDate := none, lostReason := none }

def missingBody : ReorderBody :=
  { opportunityId := "o9", newStatus := "closed-won", newOrder := 0,
    wonDate := none, lostReason := none }

-- The stats scenario: three opportunities of values 1000 / 2000 / 500.
def c8store : List Opportunity :=
  [{ baseOpp with id := "s1", value := some 1000, status := "lead" },
   { baseOpp with id := "s2", value := some 2000, status := "closed-won" },
   { baseOpp with id := "s3", value := some 500, status := "closed-lost" }]

-- Search fixtures: matching records of user u1, plus a matching contact
-- of another user u2.
def cAcme : Contact :=
  { id := "c1", userId := "u1", name := "Acme Anvils", email := some "sales@acme.io",
    phone := none, company := some "Acme", title := none, createdAt := 0, updatedAt := 0 }

def cOther : Contact := { cAcme with id := "c2", userId := "u2" }

def oAcme : Opportunity := { baseOpp with id := "o2", title := "Acme deal" }

def mAcme : Communication :=
  { id := "m1", userId := "u1", commType := "email", direction := "outbound",
    subject := some "Acme intro", content := none, contactId := some "c1",
    opportunityId := none, createdAt := 0, updatedAt := 0 }

def dAcme : Document :=
  { id := "d1", userId := "u1", filename := "1-acme.pdf", originalName := "acme.pdf",
    mimeType := "application/pdf", size := 100, uploadPath := "uploads/u1/1-acme.pdf",
    contactId := none, opportunityId := none, createdAt := 0, updatedAt := 0 }

def searchStore : Store :=
  { contacts := [cAcme, cOther], opportunities := [oAcme],
    communications := [mAcme], documents := [dAcme] }

-- The same store with the other user's contact removed.
def searchStoreOwn : Store := { searchStore with contacts := [cAcme] }

-- An upload fixture one byte over the 10MB limit.
def bigFile : FileData :=
  { name := "big.bin", mimeType := "application/octet-stream",
    size := 10 * 1024 * 1024 + 1, bytes := [] }

def bigUpload : UploadBody := { file := some bigFile, contactId := none, opportunityId := none }

def docStore0 : DocStore := { fs := [], docs := [] }

-- The concrete listing response for the stats scenario.
def c8resp : OppsResponse := getRespOrEmpty (opportunitiesGET (some "u1") c8store "" "" "")

-- The concrete aggregated search response on the seeded store.
def searchRespAgg : SearchResults :=
  match searchGET (some "u1") searchStore (some "acme") none none with
  | SearchResponse.ok r => r
  | _ => { contacts := [], opportunities := [], communications := [], documents := [], total := 0 }

/-! Helper lemmas -/

theorem applyReorderData_status (o : Opportunity) (b : ReorderBody) (now : Int) :
    (applyReorderData o b now).status = b.newStatus := by
  unfold applyReorderData
  by_cases h1 : b.newStatus == "closed-won"
  · simp [h1]
  · by_cases h2 : b.newStatus == "closed-lost" <;> simp [h1, h2]

theorem applyReorderData_stageOrder (o : Opportunity) (b : ReorderBody) (now : Int) :
    (applyReorderData o b now).stageOrder = b.newOrder := by
  unfold applyReorderData
  by_cases h1 : b.newStatus == "closed-won"
  · simp [h1]
  · by_cases h2 : b.newStatus == "closed-lost" <;> simp [h1, h2]

theorem applyReorderData_won (o : Opportunity) (b : ReorderBody) (now : Int)
    (h : b.newStatus = "closed-won") :
    (applyReorderData o b now).probability = 100 ∧
    (applyReorderData o b now).wonDate = some (b.wonDate.getD now) := by
  simp [applyReorderData, h]

theorem applyReorderData_lost (o : Opportunity) (b : ReorderBody) (now : Int)
    (h : b.newStatus = "closed-lost") :
    (applyReorderData o b now).probability = 0 ∧
    (applyReorderData o b now).lostReason = some (jsOrString b.lostReason "Not specified") := by
  simp +decide [applyReorderData, h]

theorem jsOrString_notSpec_ne (o : Option String) : jsOrString o "Not specified" ≠ "" := by
  unfold jsOrString
  cases o with
  | none => decide
  | some s =>
    by_cases h : s == ""
    · simp [h]
    · simp only [if_neg h]
      simpa using h

theorem applyReorderData_probInvariant (o : Opportunity) (b : ReorderBody) (now : Int) :
    probInvariant (applyReorderData o b now) := by
  unfold probInvariant
  by_cases h1 : b.newStatus = "closed-won"
  · have hw := applyReorderData_won o b now h1
    have hs := applyReorderData_status o b now
    refine ⟨fun _ => hw.1, fun hc => ?_⟩
    rw [hs, h1] at hc
    exact absurd hc (by decide)
  · by_cases h2 : b.newStatus = "closed-lost"
    · have hl := applyReorderData_lost o b now h2
      have hs := applyReorderData_status o b now
      refine ⟨fun hc => ?_, fun _ => hl.1⟩
      rw [hs, h2] at hc
      exact absurd hc (by decide)
    · have hs := applyReorderData_status o b now
      exact ⟨fun hc => absurd (hs.symm.trans hc) h1, fun hc => absurd (hs.symm.trans hc) h2⟩

/-! C1.  The claim asserts that the probability invariant is preserved by
every mutation path, naming the reorder operation and the generic
opportunity update.  The reorder path does force probability, but the
generic PUT stores the supplied status and probability without forcing,
so the claim fails there; the counterexample below exhibits a PUT that
leaves a closed-won record at probability 50. -/

/-- C1 counterexample: a schema-valid PUT that sets status closed-won
together with probability 50 is stored as-is, violating the probability
invariant. -/
theorem put_breaks_probability_invariant :
    updateOppValid cxPutBody = true ∧
    (updatePUT (some "u1") [baseOpp] "o1" cxPutBody).2 =
      [{ baseOpp with status := "closed-won", probability := 50, closeDate := none }] ∧
    ¬ probInvariant { baseOpp with status := "closed-won", probability := 50, closeDate := none } := by
  refine ⟨by decide, ?_, by decide⟩
  decide

/-- C1 (amended): the probability invariant is preserved by the Move
(reorder) operation — after any reorder, every stored record still
satisfies it — while the generic opportunity update does not force
probability (see the counterexample). -/
theorem reorder_preserves_probInvariant (session : Option String) (now : Int)
    (store : List Opportunity) (body : ReorderBody)
    (h : ∀ o ∈ store, probInvariant o) :
    ∀ o ∈ (reorderPOST session now store body).2, probInvariant o := by
  cases session with
  | none => simpa [reorderPOST] using h
  | some uid =>
    unfold reorderPOST reorderParse
    by_cases hv : body.newStatus ∈ validStatuses
    · simp only [if_pos hv]
      cases hf : findFirstOpp store body.opportunityId uid with
      | none => simpa [hf] using h
      | some o =>
        simp only [hf]
        intro x hx
        simp only [List.mem_map] at hx
        obtain ⟨y, hy, hxy⟩ := hx
        by_cases hid : y.id == body.opportunityId
        · rw [if_pos hid] at hxy
          exact hxy ▸ applyReorderData_probInvariant y body now
        · rw [if_neg hid] at hxy
          exact hxy ▸ h y hy
    · simpa [hv] using h

/-- C1 witness: a concrete closed-lost move on a store satisfying the
invariant, with the invariant still holding afterwards. -/
theorem reorder_preserves_probInvariant_witness :
    (∀ o ∈ [baseOpp], probInvariant o) ∧
    ∀ o ∈ (reorderPOST (some "u1") 5 [baseOpp] moveLostBody).2, probInvariant o := by
  have h : ∀ o ∈ [baseOpp], probInvariant o := by decide
  exact ⟨h, reorder_preserves_probInvariant (some "u1") 5 [baseOpp] moveLostBody h⟩

/-- C2: a successful Move sets status and stageOrder to the requested
values; a move to closed-won forces probability 100 and sets wonDate to
the supplied date or now; a move to closed-lost forces probability 0 and
records the supplied reason or the non-empty default. -/
theorem reorder_move_closed_semantics (session : Option String) (now : Int)
    (store : List Opportunity) (body : ReorderBody) (upd : Opportunity)
    (hok : (reorderPOST session now store body).1 = Except.ok upd) :
    upd.status = body.newStatus ∧ upd.stageOrder = body.newOrder ∧
    (body.newStatus = "closed-won" →
      upd.probability = 100 ∧ upd.wonDate = some (body.wonDate.getD now)) ∧
    (body.newStatus = "closed-lost" →
      upd.probability = 0 ∧
      upd.lostReason = some (jsOrString body.lostReason "Not specified") ∧
      jsOrString body.lostReason "Not specified" ≠ "") := by
  cases session with
  | none => simp [reorderPOST] at hok
  | some uid =>
    unfold reorderPOST reorderParse at hok
    by_cases hv : body.newStatus ∈ validStatuses
    · simp only [if_pos hv] at hok
      cases hf : findFirstOpp store body.opportunityId uid with
      | none => rw [hf] at hok; simp at hok
      | some o =>
        rw [hf] at hok
        have he : applyReorderData o body now = upd := by simpa using hok
        refine he ▸ ⟨applyReorderData_status o body now, applyReorderData_stageOrder o body now,
          fun hw => applyReorderData_won o body now hw,
          fun hl => ⟨(applyReorderData_lost o body now hl).1,
            (applyReorderData_lost o body now hl).2, jsOrString_notSpec_ne body.lostReason⟩⟩
    · simp [hv] at hok

/-- C2 witness: a concrete closed-lost move with an empty supplied
reason, showing the defaulted non-empty lost reason and forced
probability. -/
theorem reorder_move_closed_semantics_witness :
    (reorderPOST (some "u1") 5 [baseOpp] moveLostBody).1 =
      Except.ok (applyReorderData baseOpp moveLostBody 5) ∧
    ((applyReorderData baseOpp moveLostBody 5).status = moveLostBody.newStatus ∧
     (applyReorderData baseOpp moveLostBody 5).stageOrder = moveLostBody.newOrder ∧
     (moveLostBody.newStatus = "closed-won" →
       (applyReorderData baseOpp moveLostBody 5).probability = 100 ∧
       (applyReorderData baseOpp moveLostBody 5).wonDate = some (moveLostBody.wonDate.getD 5)) ∧
     (moveLostBody.newStatus = "closed-lost" →
       (applyReorderData baseOpp moveLostBody 5).probability = 0 ∧
       (applyReorderData baseOpp moveLostBody 5).lostReason =
         some (jsOrString moveLostBody.lostReason "Not specified") ∧
       jsOrString moveLostBody.lostReason "Not specified" ≠ "")) := by
  have hok : (reorderPOST (some "u1") 5 [baseOpp] moveLostBody).1 =
      Except.ok (applyReorderData baseOpp moveLostBody 5) := rfl
  exact ⟨hok, reorder_move_closed_semantics (some "u1") 5 [baseOpp] moveLostBody _ hok⟩

/-- C9: with a verified caller, a reorder body whose status lies outside
the fixed enumeration yields a ValidationError with the store unchanged,
and a schema-valid body naming an opportunity the caller does not own
yields NotFound with the store unchanged (the schema check runs first). -/
theorem reorder_error_paths (session : Option String) (uid : String) (now : Int)
    (store : List Opportunity) (body : ReorderBody) (hs : session = some uid) :
    (body.newStatus ∉ validStatuses →
      reorderPOST session now store body =
        (Except.error (ApiError.validationError "Validation error"), store)) ∧
    (body.newStatus ∈ validStatuses →
      findFirstOpp store body.opportunityId uid = none →
      reorderPOST session now store body =
        (Except.error (ApiError.notFound "Opportunity not found"), store)) := by
  subst hs
  constructor
  · intro hv
    simp [reorderPOST, reorderParse, hv]
  · intro hv hn
    simp [reorderPOST, reorderParse, hv, hn]

/-- C9 witness: a concrete out-of-enumeration status and a concrete
missing opportunity id, each leaving the concrete store unchanged. -/
theorem reorder_error_paths_witness :
    (bogusBody.newStatus ∉ validStatuses ∧
      reorderPOST (some "u1") 0 [baseOpp] bogusBody =
        (Except.error (ApiError.validationError "Validation error"), [baseOpp])) ∧
    (missingBody.newStatus ∈ validStatuses ∧
      findFirstOpp [baseOpp] missingBody.opportunityId "u1" = none ∧
      reorderPOST (some "u1") 0 [baseOpp] missingBody =
        (Except.error (ApiError.notFound "Opportunity not found"), [baseOpp])) := by
  have t := reorder_error_paths (some "u1") "u1" 0 [baseOpp] bogusBody rfl
  have t2 := reorder_error_paths (some "u1") "u1" 0 [baseOpp] missingBody rfl
  have hb : bogusBody.newStatus ∉ validStatuses := by decide
  have hv : missingBody.newStatus ∈ validStatuses := by decide
  have hn : findFirstOpp [baseOpp] missingBody.opportunityId "u1" = none := by decide
  exact ⟨⟨hb, t.1 hb⟩, ⟨hv, hn, t2.2 hv hn⟩⟩

theorem roundTo2_zero : roundTo2 0 = 0 := by
  unfold roundTo2 jsRound
  norm_num

theorem count_filter_eq [DecidableEq α] (p : α → Bool) (a : α) (l : List α) :
    (l.filter p).count a = if p a = true then l.count a else 0 := by
  by_cases h : p a = true
  · simp only [if_pos h]
    induction l with
    | nil => simp
    | cons x xs ih =>
      by_cases hx : p x = true
      · rw [List.filter_cons_of_pos hx, List.count_cons, List.count_cons, ih]
      · rw [List.filter_cons_of_neg hx, ih, List.count_cons]
        have hax : ¬(x == a) = true := by
          intro hxa
          exact hx (by rwa [show x = a from by simpa using hxa] )
        simp [hax]
  · simp only [if_neg h]
    refine List.count_eq_zero.2 (fun hm => ?_)
    exact h (List.mem_filter.1 hm).2

theorem mem_statusFilter {l : List Opportunity} {o : Opportunity} (ho : o ∈ l) (k : String) :
    o ∈ l.filter (fun x => x.status == k) ↔ k = o.status := by
  rw [List.mem_filter]
  constructor
  · intro h
    have h2 := h.2
    simp only [beq_iff_eq] at h2
    exact h2.symm
  · intro h
    exact ⟨ho, by simp [h.symm]⟩

/-- C5: the winRate field computed by the listing endpoint is 0 when the
closed-won and closed-lost counts are both 0, and otherwise equals
100 * won / (won + lost) rounded to two decimal places. -/
theorem computeStats_winRate (opps : List Opportunity) :
    (computeStats opps).winRate =
      (if (opps.filter (fun o => o.status == "closed-won")).length +
          (opps.filter (fun o => o.status == "closed-lost")).length = 0 then (0 : ℚ)
       else roundTo2 (100 * ((opps.filter (fun o => o.status == "closed-won")).length : ℚ) /
         (((opps.filter (fun o => o.status == "closed-won")).length : ℚ) +
          ((opps.filter (fun o => o.status == "closed-lost")).length : ℚ)))) := by
  have hdef : (computeStats opps).winRate =
      roundTo2 (if (opps.filter (fun o => o.status == "closed-won")).length +
          (opps.filter (fun o => o.status == "closed-lost")).length > 0 then
        (((opps.filter (fun o => o.status == "closed-won")).length : ℚ) /
          (((opps.filter (fun o => o.status == "closed-won")).length +
            (opps.filter (fun o => o.status == "closed-lost")).length : ℕ) : ℚ)) * 100
      else 0) := rfl
  rw [hdef]
  by_cases h : (opps.filter (fun o => o.status == "closed-won")).length +
      (opps.filter (fun o => o.status == "closed-lost")).length = 0
  · rw [if_neg (by omega), if_pos h, roundTo2_zero]
  · rw [if_pos (Nat.pos_of_ne_zero h), if_neg h]
    congr 1
    push_cast
    ring

/-- C4: a successful kanban listing partitions the fetched set: a fetched
opportunity lies in a bucket exactly when the bucket key is its status,
the join of the six buckets has the same multiset of records as the
fetched list (given the data-model status invariant), and the bucket keys
come in the fixed stage-enumeration order. -/
theorem kanban_partition (uid : String) (store : List Opportunity)
    (query status contactId : String) (r : OppsResponse)
    (hok : opportunitiesGET (some uid) store query status contactId = Except.ok r)
    (hval : ∀ o ∈ r.opportunities, o.status ∈ validStatuses) :
    (∀ o ∈ r.opportunities, ∀ k bucket, (k, bucket) ∈ r.kanban → (o ∈ bucket ↔ k = o.status)) ∧
    (∀ o : Opportunity, ((r.kanban.map Prod.snd).join).count o = r.opportunities.count o) ∧
    r.kanban.map Prod.fst = validStatuses := by
  set L := sortByLE oppOrderLE (store.filter (oppMatchesWhere uid query status contactId)) with hL
  have h : (Except.ok { opportunities := L, kanban := kanbanData L, stats := computeStats L } : Except ApiError OppsResponse) = Except.ok r := hok
  injection h with h2
  subst h2
  simp only at hval
  refine ⟨?_, ?_, by simp [kanbanData, validStatuses]⟩
  · intro o ho k bucket hkb
    simp only [kanbanData, List.mem_cons, List.not_mem_nil, or_false, Prod.mk.injEq] at hkb
    rcases hkb with ⟨hk, hb⟩ | ⟨hk, hb⟩ | ⟨hk, hb⟩ | ⟨hk, hb⟩ | ⟨hk, hb⟩ | ⟨hk, hb⟩ <;>
      (subst hk; subst hb; exact mem_statusFilter ho _)
  · intro o
    simp only [kanbanData, List.map_cons, List.map_nil, List.join_cons, List.join_nil,
      List.count_append, List.append_nil]
    by_cases ho : o ∈ L
    · have hs : o.status ∈ validStatuses := hval o ho
      have hcount : ∀ k : String,
          (L.filter (fun x => x.status == k)).count o =
          if o.status = k then L.count o else 0 := by
        intro k
        rw [count_filter_eq]
        by_cases hk : o.status = k
        · simp [hk]
        · simp [hk]
      rcases (by simpa [validStatuses] using hs : o.status = "lead" ∨ o.status = "qualified" ∨
          o.status = "proposal" ∨ o.status = "negotiating" ∨ o.status = "closed-won" ∨
          o.status = "closed-lost") with h | h | h | h | h | h <;>
        simp +decide [hcount, h]
    · have h0 : L.count o = 0 := List.count_eq_zero.2 ho
      have hk : ∀ k : String,
          (L.filter (fun x => x.status == k)).count o = 0 :=
        fun k => List.count_eq_zero.2 (fun hm => ho (List.mem_filter.1 hm).1)
      simp [hk, h0]

/-- C4 witness: the concrete three-opportunity listing, with the status
invariant discharged by evaluation. -/
theorem kanban_partition_witness :
    opportunitiesGET (some "u1") c8store "" "" "" = Except.ok c8resp ∧
    (∀ o ∈ c8resp.opportunities, o.status ∈ validStatuses) ∧
    ((∀ o ∈ c8resp.opportunities, ∀ k bucket, (k, bucket) ∈ c8resp.kanban →
        (o ∈ bucket ↔ k = o.status)) ∧
     (∀ o : Opportunity, ((c8resp.kanban.map Prod.snd).join).count o =
        c8resp.opportunities.count o) ∧
     c8resp.kanban.map Prod.fst = validStatuses) := by
  have hok : opportunitiesGET (some "u1") c8store "" "" "" = Except.ok c8resp := rfl
  have hval : ∀ o ∈ c8resp.opportunities, o.status ∈ validStatuses := by decide
  exact ⟨hok, hval, kanban_partition "u1" c8store "" "" "" c8resp hok hval⟩

/-- C8 counterexample: on the 1000/2000/500 scenario the avgValue the
endpoint computes is the unrounded 3500/3, which differs from the
claimed 1166.67. -/
theorem stats_scenario_avgValue_not_rounded :
    c8resp.stats.avgValue = 3500 / 3 ∧ (3500 / 3 : ℚ) ≠ 116667 / 100 := by
  constructor
  · norm_num +decide [c8resp, getRespOrEmpty, opportunitiesGET, computeStats, c8store, baseOpp,
      sortByLE, insertLE, oppOrderLE, strLTb, charListLT, oppMatchesWhere, sumValues, valOrZero,
      listStartsWith]
  · norm_num

/-- C8 (amended): the scenario stats are pipelineValue 1000, wonValue
2000, winRate 50.00, conversion counts 1/1/1, and avgValue equal to the
unrounded 3500/3 (the implementation does not round avgValue). -/
theorem stats_scenario_values :
    respStats (opportunitiesGET (some "u1") c8store "" "" "") = some
      { total := 3, totalValue := 3500, pipelineValue := 1000, wonValue := 2000,
        winRate := 50, avgValue := 3500 / 3, won := 1, lost := 1, active := 1 } := by
  norm_num +decide [opportunitiesGET, respStats, computeStats, c8store, baseOpp, sortByLE,
    insertLE, oppOrderLE, strLTb, charListLT, oppMatchesWhere, kanbanData, sumValues, valOrZero,
    listStartsWith, roundTo2, jsRound]

theorem mem_insertLE {le : α → α → Bool} {x y : α} {l : List α} :
    y ∈ insertLE le x l ↔ y = x ∨ y ∈ l := by
  induction l with
  | nil => simp [insertLE]
  | cons a tl ih =>
    unfold insertLE
    by_cases h : le x a
    · simp [h]
    · simp only [if_neg h, List.mem_cons, ih]
      tauto

theorem mem_sortByLE {le : α → α → Bool} {y : α} {l : List α} :
    y ∈ sortByLE le l ↔ y ∈ l := by
  induction l with
  | nil => simp [sortByLE]
  | cons a tl ih => simp [sortByLE, mem_insertLE, ih]

theorem jsTake_nat_length_le (n : ℕ) (l : List α) : (jsTake (n : ℚ) l).length ≤ n := by
  unfold jsTake
  rw [Int.floor_natCast]
  simpa using List.length_take_le _ _

theorem jsTake_length_le_q {q : ℚ} (hq : 0 ≤ q) (l : List α) :
    ((jsTake q l).length : ℚ) ≤ q := by
  unfold jsTake
  calc ((l.take (Int.toNat ⌊q⌋)).length : ℚ) ≤ ((Int.toNat ⌊q⌋ : ℕ) : ℚ) := by
        exact_mod_cast List.length_take_le _ _
    _ = ((⌊q⌋ : ℤ) : ℚ) := by
        norm_cast
        exact Int.toNat_of_nonneg (Int.floor_nonneg.2 hq)
    _ ≤ q := Int.floor_le q

theorem jsTake_cast_min50 (a : ℕ) (l : List α) :
    (jsTake ((a : ℚ) ⊓ 50) l).length ≤ a ∧ (jsTake ((a : ℚ) ⊓ 50) l).length ≤ 50 := by
  have h : ((a : ℚ) ⊓ 50) = ((min a 50 : ℕ) : ℚ) := by
    rw [Nat.cast_min]
    norm_num
  rw [h]
  exact ⟨le_trans (jsTake_nat_length_le _ _) (min_le_left _ _),
    le_trans (jsTake_nat_length_le _ _) (min_le_right _ _)⟩

theorem jsTake_agg_caps (a : ℕ) (l : List α) :
    ((jsTake (((a : ℚ) ⊓ 50) / 4 ⊓ 10) l).length : ℚ) ≤ ((a : ℚ) ⊓ 50) / 4 ∧
    (jsTake (((a : ℚ) ⊓ 50) / 4 ⊓ 10) l).length ≤ 10 := by
  have hnn : (0 : ℚ) ≤ ((a : ℚ) ⊓ 50) / 4 ⊓ 10 := by
    refine le_min (div_nonneg (le_min (by positivity) (by norm_num)) (by norm_num)) (by norm_num)
  have h1 := jsTake_length_le_q hnn l
  refine ⟨le_trans h1 (min_le_left _ _), ?_⟩
  have h2 : ((jsTake (((a : ℚ) ⊓ 50) / 4 ⊓ 10) l).length : ℚ) ≤ 10 :=
    le_trans h1 (min_le_right _ _)
  exact_mod_cast h2

theorem mem_scoped_owned {β : Type} (cond : Prop) [Decidable cond] (q : ℚ)
    (le : β → β → Bool) (l : List β) (p : β → Bool) (u : β → String) (uid : String) {x : β}
    (hx : x ∈ (if cond then jsTake q (sortByLE le (l.filter (fun y => u y == uid && p y))) else [])) :
    u x = uid := by
  by_cases hc : cond
  · rw [if_pos hc] at hx
    unfold jsTake at hx
    have h2 := mem_sortByLE.1 (List.take_subset _ _ hx)
    have h3 := (List.mem_filter.1 h2).2
    simp only [Bool.and_eq_true, beq_iff_eq] at h3
    exact h3.1
  · rw [if_neg hc] at hx
    simp at hx

theorem filter_owner_congr {β : Type} (l l2 : List β) (u : β → String) (uid : String)
    (p : β → Bool)
    (h : l.filter (fun y => u y == uid) = l2.filter (fun y => u y == uid)) :
    l.filter (fun y => u y == uid && p y) = l2.filter (fun y => u y == uid && p y) := by
  have e : ∀ (m : List β),
      m.filter (fun y => u y == uid && p y) = (m.filter (fun y => u y == uid)).filter p := by
    intro m
    induction m with
    | nil => rfl
    | cons a tl ih =>
      by_cases h1 : u a == uid
      · by_cases h2 : p a
        · simp [List.filter_cons, h1, h2, ih]
        · simp [List.filter_cons, h1, h2, ih]
      · simp [List.filter_cons, h1, ih]
  rw [e, e, h]

/-- C3: every entity in a successful search response is owned by the
caller, and the response is unchanged when the stored data of every
other user changes (the caller-owned rows per collection being equal). -/
theorem search_owner_isolation (uid : String) (st st2 : Store) (query ty : Option String)
    (limP : Option ℕ)
    (hc : st.contacts.filter (fun c => c.userId == uid) =
      st2.contacts.filter (fun c => c.userId == uid))
    (ho : st.opportunities.filter (fun o => o.userId == uid) =
      st2.opportunities.filter (fun o => o.userId == uid))
    (hm : st.communications.filter (fun m => m.userId == uid) =
      st2.communications.filter (fun m => m.userId == uid))
    (hd : st.documents.filter (fun d => d.userId == uid) =
      st2.documents.filter (fun d => d.userId == uid)) :
    (∀ r, searchGET (some uid) st query ty limP = SearchResponse.ok r →
      (∀ c ∈ r.contacts, c.userId = uid) ∧ (∀ o ∈ r.opportunities, o.userId = uid) ∧
      (∀ m ∈ r.communications, m.userId = uid) ∧ (∀ d ∈ r.documents, d.userId = uid)) ∧
    searchGET (some uid) st query ty limP = searchGET (some uid) st2 query ty limP := by
  constructor
  · intro r hr
    simp only [searchGET] at hr
    by_cases hq : jsFalsyOpt query = true
    · rw [if_pos hq] at hr
      simp at hr
    · rw [if_neg hq] at hr
      injection hr with h2
      subst h2
      refine ⟨?_, ?_, ?_, ?_⟩ <;> intro x hx
      · exact mem_scoped_owned (inScope ty "contacts" = true) _ _ st.contacts
          (contactMatches (query.getD "")) Contact.userId uid hx
      · exact mem_scoped_owned (inScope ty "opportunities" = true) _ _ st.opportunities
          (oppSearchMatches (query.getD "")) Opportunity.userId uid hx
      · exact mem_scoped_owned (inScope ty "communications" = true) _ _ st.communications
          (commMatches (query.getD "")) Communication.userId uid hx
      · exact mem_scoped_owned (inScope ty "documents" = true) _ _ st.documents
          (docMatches (query.getD "")) Document.userId uid hx
  · simp only [searchGET]
    by_cases hq : jsFalsyOpt query = true
    · rw [if_pos hq, if_pos hq]
    · rw [if_neg hq, if_neg hq]
      have ec := filter_owner_congr st.contacts st2.contacts Contact.userId uid
        (contactMatches (query.getD "")) hc
      have eo := filter_owner_congr st.opportunities st2.opportunities Opportunity.userId uid
        (oppSearchMatches (query.getD "")) ho
      have em := filter_owner_congr st.communications st2.communications Communication.userId uid
        (commMatches (query.getD "")) hm
      have ed := filter_owner_congr st.documents st2.documents Document.userId uid
        (docMatches (query.getD "")) hd
      simp only [ec, eo, em, ed]

/-- C3 witness: a store containing a second user's matching contact gives
the same response as the store without it, and every returned entity
belongs to the caller. -/
theorem search_owner_isolation_witness :
    (searchStore.contacts.filter (fun c => c.userId == "u1") =
      searchStoreOwn.contacts.filter (fun c => c.userId == "u1")) ∧
    (searchStore.opportunities.filter (fun o => o.userId == "u1") =
      searchStoreOwn.opportunities.filter (fun o => o.userId == "u1")) ∧
    (searchStore.communications.filter (fun m => m.userId == "u1") =
      searchStoreOwn.communications.filter (fun m => m.userId == "u1")) ∧
    (searchStore.documents.filter (fun d => d.userId == "u1") =
      searchStoreOwn.documents.filter (fun d => d.userId == "u1")) ∧
    ((∀ r, searchGET (some "u1") searchStore (some "acme") none none = SearchResponse.ok r →
      (∀ c ∈ r.contacts, c.userId = "u1") ∧ (∀ o ∈ r.opportunities, o.userId = "u1") ∧
      (∀ m ∈ r.communications, m.userId = "u1") ∧ (∀ d ∈ r.documents, d.userId = "u1")) ∧
    searchGET (some "u1") searchStore (some "acme") none none =
      searchGET (some "u1") searchStoreOwn (some "acme") none none) := by
  have hc : searchStore.contacts.filter (fun c => c.userId == "u1") =
      searchStoreOwn.contacts.filter (fun c => c.userId == "u1") := by decide
  have ho : searchStore.opportunities.filter (fun o => o.userId == "u1") =
      searchStoreOwn.opportunities.filter (fun o => o.userId == "u1") := by decide
  have hm : searchStore.communications.filter (fun m => m.userId == "u1") =
      searchStoreOwn.communications.filter (fun m => m.userId == "u1") := by decide
  have hd : searchStore.documents.filter (fun d => d.userId == "u1") =
      searchStoreOwn.documents.filter (fun d => d.userId == "u1") := by decide
  exact ⟨hc, ho, hm, hd,
    search_owner_isolation "u1" searchStore searchStoreOwn (some "acme") none none hc ho hm hd⟩

/-- C6 counterexample: with the empty query the handler returns the bare
object with only a results field; the response carries no total field at
all, so its total is not 0. -/
theorem search_empty_query_no_total :
    searchGET (some "u1") searchStore (some "") (some "all") (some 20) = SearchResponse.bare ∧
    totalField (searchGET (some "u1") searchStore (some "") (some "all") (some 20)) = none ∧
    totalField (searchGET (some "u1") searchStore (some "") (some "all") (some 20)) ≠ some 0 := by
  refine ⟨rfl, rfl, by decide⟩

/-- C6 (amended): a search whose query parameter is missing or empty
returns the bare results-only object immediately — independent of the
stored data, hence without querying the store — and that response has no
total field. -/
theorem search_falsy_query_bare (uid : String) (st st2 : Store) (query ty : Option String)
    (limP : Option ℕ) (hq : query = none ∨ query = some "") :
    searchGET (some uid) st query ty limP = SearchResponse.bare ∧
    totalField (searchGET (some uid) st query ty limP) = none ∧
    searchGET (some uid) st query ty limP = searchGET (some uid) st2 query ty limP := by
  have hf : jsFalsyOpt query = true := by rcases hq with h | h <;> simp [h, jsFalsyOpt]
  have h1 : searchGET (some uid) st query ty limP = SearchResponse.bare := by
    simp only [searchGET]
    rw [if_pos hf]
  have h2 : searchGET (some uid) st2 query ty limP = SearchResponse.bare := by
    simp only [searchGET]
    rw [if_pos hf]
  exact ⟨h1, by rw [h1]; rfl, by rw [h1, h2]⟩

/-- C6 witness: the concrete empty-string query on a populated store. -/
theorem search_falsy_query_bare_witness :
    ((some "" : Option String) = none ∨ (some "" : Option String) = some "") ∧
    (searchGET (some "u1") searchStore (some "") none none = SearchResponse.bare ∧
     totalField (searchGET (some "u1") searchStore (some "") none none) = none ∧
     searchGET (some "u1") searchStore (some "") none none =
       searchGET (some "u1") searchStoreOwn (some "") none none) := by
  have hq : (some "" : Option String) = none ∨ (some "" : Option String) = some "" := Or.inr rfl
  exact ⟨hq, search_falsy_query_bare "u1" searchStore searchStoreOwn (some "") none none hq⟩

/-- C7: on a successful search, a single explicitly requested entity type
is returned up to the effective limit min(parsed limit default 20, 50)
with the other collections empty, and an aggregated search caps each of
the four collections at min(limit / 4, 10). -/
theorem search_limit_caps (uid : String) (st : Store) (q : String) (ty : Option String)
    (limP : Option ℕ) (r : SearchResults)
    (hok : searchGET (some uid) st (some q) ty limP = SearchResponse.ok r) :
    (ty = some "contacts" → r.contacts.length ≤ min (limP.getD 20) 50 ∧
      r.opportunities = [] ∧ r.communications = [] ∧ r.documents = []) ∧
    (ty = some "opportunities" → r.opportunities.length ≤ min (limP.getD 20) 50 ∧
      r.contacts = [] ∧ r.communications = [] ∧ r.documents = []) ∧
    (ty = some "communications" → r.communications.length ≤ min (limP.getD 20) 50 ∧
      r.contacts = [] ∧ r.opportunities = [] ∧ r.documents = []) ∧
    (ty = some "documents" → r.documents.length ≤ min (limP.getD 20) 50 ∧
      r.contacts = [] ∧ r.opportunities = [] ∧ r.communications = []) ∧
    ((ty = none ∨ ty = some "all") →
      (r.contacts.length : ℚ) ≤ min (((min (limP.getD 20) 50 : ℕ) : ℚ) / 4) 10 ∧
      (r.opportunities.length : ℚ) ≤ min (((min (limP.getD 20) 50 : ℕ) : ℚ) / 4) 10 ∧
      (r.communications.length : ℚ) ≤ min (((min (limP.getD 20) 50 : ℕ) : ℚ) / 4) 10 ∧
      (r.documents.length : ℚ) ≤ min (((min (limP.getD 20) 50 : ℕ) : ℚ) / 4) 10) := by
  have hcap : (0 : ℚ) ≤ min (((min (limP.getD 20) 50 : ℕ) : ℚ) / 4) 10 := by
    refine le_min ?_ (by norm_num)
    positivity
  simp only [searchGET] at hok
  by_cases hq : jsFalsyOpt (some q) = true
  · rw [if_pos hq] at hok
    simp at hok
  · rw [if_neg hq] at hok
    injection hok with h2
    subst h2
    refine ⟨?_, ?_, ?_, ?_, ?_⟩
    · intro h
      subst h
      refine ⟨?_, by simp +decide [inScope, jsFalsyOpt], by simp +decide [inScope, jsFalsyOpt],
        by simp +decide [inScope, jsFalsyOpt]⟩
      simp +decide [inScope, jsFalsyOpt, takeCount]
      exact jsTake_cast_min50 _ _
    · intro h
      subst h
      refine ⟨?_, by simp +decide [inScope, jsFalsyOpt], by simp +decide [inScope, jsFalsyOpt],
        by simp +decide [inScope, jsFalsyOpt]⟩
      simp +decide [inScope, jsFalsyOpt, takeCount]
      exact jsTake_cast_min50 _ _
    · intro h
      subst h
      refine ⟨?_, by simp +decide [inScope, jsFalsyOpt], by simp +decide [inScope, jsFalsyOpt],
        by simp +decide [inScope, jsFalsyOpt]⟩
      simp +decide [inScope, jsFalsyOpt, takeCount]
      exact jsTake_cast_min50 _ _
    · intro h
      subst h
      refine ⟨?_, by simp +decide [inScope, jsFalsyOpt], by simp +decide [inScope, jsFalsyOpt],
        by simp +decide [inScope, jsFalsyOpt]⟩
      simp +decide [inScope, jsFalsyOpt, takeCount]
      exact jsTake_cast_min50 _ _
    · intro h
      rcases h with h | h <;> subst h <;>
        (simp +decide [inScope, jsFalsyOpt, takeCount]
         exact ⟨jsTake_agg_caps _ _, jsTake_agg_caps _ _, jsTake_agg_caps _ _,
           jsTake_agg_caps _ _⟩)

/-- C7 witness: the concrete aggregated search on the seeded store. -/
theorem search_limit_caps_witness :
    searchGET (some "u1") searchStore (some "acme") none none =
      SearchResponse.ok searchRespAgg ∧
    ((none = some "contacts" → searchRespAgg.contacts.length ≤ min ((none : Option ℕ).getD 20) 50 ∧
      searchRespAgg.opportunities = [] ∧ searchRespAgg.communications = [] ∧
      searchRespAgg.documents = []) ∧
    (none = some "opportunities" →
      searchRespAgg.opportunities.length ≤ min ((none : Option ℕ).getD 20) 50 ∧
      searchRespAgg.contacts = [] ∧ searchRespAgg.communications = [] ∧
      searchRespAgg.documents = []) ∧
    (none = some "communications" →
      searchRespAgg.communications.length ≤ min ((none : Option ℕ).getD 20) 50 ∧
      searchRespAgg.contacts = [] ∧ searchRespAgg.opportunities = [] ∧
      searchRespAgg.documents = []) ∧
    (none = some "documents" →
      searchRespAgg.documents.length ≤ min ((none : Option ℕ).getD 20) 50 ∧
      searchRespAgg.contacts = [] ∧ searchRespAgg.opportunities = [] ∧
      searchRespAgg.communications = []) ∧
    (((none : Option String) = none ∨ (none : Option String) = some "all") →
      (searchRespAgg.contacts.length : ℚ) ≤
        min (((min ((none : Option ℕ).getD 20) 50 : ℕ) : ℚ) / 4) 10 ∧
      (searchRespAgg.opportunities.length : ℚ) ≤
        min (((min ((none : Option ℕ).getD 20) 50 : ℕ) : ℚ) / 4) 10 ∧
      (searchRespAgg.communications.length : ℚ) ≤
        min (((min ((none : Option ℕ).getD 20) 50 : ℕ) : ℚ) / 4) 10 ∧
      (searchRespAgg.documents.length : ℚ) ≤
        min (((min ((none : Option ℕ).getD 20) 50 : ℕ) : ℚ) / 4) 10)) := by
  have hok : searchGET (some "u1") searchStore (some "acme") none none =
      SearchResponse.ok searchRespAgg := rfl
  exact ⟨hok, search_limit_caps "u1" searchStore "acme" none none searchRespAgg hok⟩

/-- C10: an upload whose file exceeds 10 * 1024 * 1024 bytes is rejected
with the file-too-large validation error, with no bytes written to file
storage and no document record created. -/
theorem upload_size_limit (session : Option String) (uid genId genFilename : String)
    (now : Int) (st : DocStore) (body : UploadBody) (f : FileData)
    (hs : session = some uid) (hf : body.file = some f)
    (hsize : f.size > 10 * 1024 * 1024) :
    documentsPOST session genId genFilename now st body =
      (Except.error (ApiError.validationError "File too large. Maximum size is 10MB"), st) := by
  subst hs
  simp only [documentsPOST, hf]
  rw [if_pos hsize]

/-- C10 witness: a file of 10MB + 1 byte against an empty store. -/
theorem upload_size_limit_witness :
    (some "u1" : Option String) = some "u1" ∧ bigUpload.file = some bigFile ∧
    bigFile.size > 10 * 1024 * 1024 ∧
    documentsPOST (some "u1") "d9" "gen.bin" 0 docStore0 bigUpload =
      (Except.error (ApiError.validationError "File too large. Maximum size is 10MB"), docStore0) := by
  have hf : bigUpload.file = some bigFile := rfl
  have hsize : bigFile.size > 10 * 1024 * 1024 := by decide
  exact ⟨rfl, hf, hsize,
    upload_size_limit (some "u1") "u1" "d9" "gen.bin" 0 docStore0 bigUpload bigFile rfl hf hsize⟩

end CrmSpec
